import Mathlib

set_option maxRecDepth 100000

/-!
Verification development for the rc-visualizer-backend HTTP service.

The service (files `src/server.js` and `src/unnamed/part_000`) is an
Express server with up to three POST routes (`/analyze`, `/mindmap`,
`/solve`).  Each route checks the request body, assembles a prompt,
calls an external text-generation model, strips markdown code fences
from the reply, and — on the JSON routes — extracts the substring
between the first brace and the last closing brace, parses it as JSON,
and (on `/analyze`) validates it against a fixed Ajv schema.

Modelling conventions:
  * Text is `List Char` (JS strings; the service only uses code points
    for which this is faithful — lone UTF-16 surrogates are not
    modelled, and no claim exercises them).
  * The external model is a parameter `m : List Char → List Char`
    mapping the assembled prompt to the reply text.
  * Each handler returns `Response × Nat`, the second component being
    the number of calls made to the external generation API.
  * JS regex `replace(/```json|```/g, "")` is a single left-to-right
    scan which, at each position, removes the first alternative that
    matches and continues after it; this is transcribed as a priority
    pattern match below.
-/

/-- Characters removed by JavaScript `String.prototype.trim`:
the ECMAScript WhiteSpace and LineTerminator code points. -/
def jsWsChars : List Char :=
  ['\x09', '\x0a', '\x0b', '\x0c', '\x0d', ' ', ' ', ' ',
   ' ', ' ', ' ', ' ', ' ', ' ', ' ',
   ' ', ' ', ' ', ' ', ' ', ' ', ' ',
   ' ', '　', '﻿']

/-- Test used by the model of `String.prototype.trim`. -/
def isJsTrimWs (c : Char) : Bool := jsWsChars.contains c

/-- Model of JavaScript `String.prototype.trim`. -/
def jsTrim (s : List Char) : List Char :=
  ((s.dropWhile isJsTrimWs).reverse.dropWhile isJsTrimWs).reverse

/-- Model of `responseText.replace(/```json|```/g, "")` used by the
`/analyze` and `/solve` routes (part_000 lines 126 and 198, server.js
line 121): at each position the alternative ```` ```json ```` is tried
first, then ```` ``` ````; a match is deleted and scanning resumes
after it; any other character is kept. -/
def stripJsonFences : List Char → List Char
  | '\x60' :: '\x60' :: '\x60' :: 'j' :: 's' :: 'o' :: 'n' :: rest =>
      stripJsonFences rest
  | '\x60' :: '\x60' :: '\x60' :: rest => stripJsonFences rest
  | c :: rest => c :: stripJsonFences rest
  | [] => []

/-- Model of `responseText.replace(/```html|```/g, "")` used by the
`/mindmap` route (part_000 line 167). -/
def stripHtmlFences : List Char → List Char
  | '\x60' :: '\x60' :: '\x60' :: 'h' :: 't' :: 'm' :: 'l' :: rest =>
      stripHtmlFences rest
  | '\x60' :: '\x60' :: '\x60' :: rest => stripHtmlFences rest
  | c :: rest => c :: stripHtmlFences rest
  | [] => []

/-- Index of the first occurrence of `c`, JS `indexOf` (None for -1). -/
def firstIdxOf (c : Char) (s : List Char) : Option Nat :=
  s.findIdx? (fun a => a == c)

/-- Index of the last occurrence of `c`, JS `lastIndexOf` (None for -1). -/
def lastIdxOf (c : Char) (s : List Char) : Option Nat :=
  match (s.reverse).findIdx? (fun a => a == c) with
  | none => none
  | some i => some (s.length - 1 - i)

/-- Model of JS `s.slice(a, b)` for the in-range indices the routes
produce (`a` = index of a brace, `b` = last-brace index + 1). -/
def sliceList (s : List Char) (a b : Nat) : List Char :=
  (s.drop a).take (b - a)

/-- The cleaning step shared by the two JSON routes:
`responseText.replace(/```json|```/g, "").trim()`. -/
def jsonRouteClean (r : List Char) : List Char := jsTrim (stripJsonFences r)

/-- The cleaning step of the `/mindmap` route:
`responseText.replace(/```html|```/g, "").trim()`. -/
def mindmapClean (r : List Char) : List Char := jsTrim (stripHtmlFences r)

/-- Extraction used by `/analyze` and `/solve`: locate the first
opening brace and the last closing brace of the cleaned text; if
either is absent the routes answer 400, otherwise the inclusive
substring between them is taken (part_000 lines 127-132). -/
def extractSlice (clean : List Char) : Option (List Char) :=
  match firstIdxOf '\x7b' clean, lastIdxOf '\x7d' clean with
  | some st, some en => some (sliceList clean st (en + 1))
  | _, _ => none

/-- JSON values as produced by `JSON.parse`.  Numbers keep their
source lexeme: the service never computes with a numeric value (it
only re-serialises the object or hands it to the schema validator,
which contains no number-typed field), so double conversion is not
modelled. -/
inductive Json where
  | null
  | bool (b : Bool)
  | num (lexeme : String)
  | str (s : String)
  | arr (elems : List Json)
  | obj (fields : List (String × Json))

/-- The JSON insignificant-whitespace characters (RFC 8259). -/
def jsonWs (c : Char) : Bool :=
  c == '\x20' || c == '\x09' || c == '\x0a' || c == '\x0d'

/-- Skip insignificant whitespace. -/
def skipWs (s : List Char) : List Char := s.dropWhile jsonWs

/-- Value of a hexadecimal digit. -/
def hexVal (c : Char) : Option Nat :=
  if '0' ≤ c ∧ c ≤ '9' then some (c.toNat - 48)
  else if 'a' ≤ c ∧ c ≤ 'f' then some (c.toNat - 87)
  else if 'A' ≤ c ∧ c ≤ 'F' then some (c.toNat - 55)
  else none

/-- Prepend a character to the first component of a pair. -/
def consFst (c : Char) (p : List Char × List Char) : List Char × List Char :=
  (c :: p.1, p.2)

/-- Parse the body of a JSON string literal (after the opening quote),
returning the decoded characters and the input after the closing
quote.  Escape sequences follow RFC 8259; surrogate pairs are not
recombined (no claim exercises astral-plane text). -/
def parseStrChars : List Char → Except String (List Char × List Char)
  | [] => .error "Unterminated string in JSON"
  | '"' :: rest => .ok ([], rest)
  | '\\' :: '"' :: rest => (parseStrChars rest).map (consFst '"')
  | '\\' :: '\\' :: rest => (parseStrChars rest).map (consFst '\\')
  | '\\' :: '/' :: rest => (parseStrChars rest).map (consFst '/')
  | '\\' :: 'b' :: rest => (parseStrChars rest).map (consFst '\x08')
  | '\\' :: 'f' :: rest => (parseStrChars rest).map (consFst '\x0c')
  | '\\' :: 'n' :: rest => (parseStrChars rest).map (consFst '\x0a')
  | '\\' :: 'r' :: rest => (parseStrChars rest).map (consFst '\x0d')
  | '\\' :: 't' :: rest => (parseStrChars rest).map (consFst '\x09')
  | '\\' :: 'u' :: h1 :: h2 :: h3 :: h4 :: rest =>
      match hexVal h1, hexVal h2, hexVal h3, hexVal h4 with
      | some a, some b, some c, some d =>
          (parseStrChars rest).map
            (consFst (Char.ofNat (4096 * a + 256 * b + 16 * c + d)))
      | _, _, _, _ => .error "Bad Unicode escape in JSON"
  | '\\' :: _ => .error "Bad escaped character in JSON"
  | c :: rest =>
      if c.toNat < 32 then .error "Bad control character in string literal in JSON"
      else (parseStrChars rest).map (consFst c)

/-- Parse a JSON number lexeme (RFC 8259 grammar), returning the
lexeme and the rest of the input. -/
def parseNumLexeme (s : List Char) : Except String (List Char × List Char) :=
  let signed := match s with
    | '-' :: r => (['-'], r)
    | _ => (([] : List Char), s)
  let sign := signed.1
  let s1 := signed.2
  match s1 with
  | '0' :: r => Except.ok (sign ++ ['0'], r)
  | c :: r =>
      if c.isDigit then
        Except.ok (sign ++ (c :: r.takeWhile Char.isDigit), r.dropWhile Char.isDigit)
      else Except.error "Unexpected token in JSON"
  | [] => Except.error "Unexpected end of JSON input"

/-- Parse the optional fraction part. -/
def parseFrac (s : List Char) : Except String (List Char × List Char) :=
  match s with
  | '.' :: r =>
      match r.takeWhile Char.isDigit with
      | [] => .error "Unterminated fractional number in JSON"
      | ds => .ok ('.' :: ds, r.dropWhile Char.isDigit)
  | _ => .ok ([], s)

/-- Parse the optional exponent part. -/
def parseExp (s : List Char) : Except String (List Char × List Char) :=
  match s with
  | e :: r =>
      if e == 'e' || e == 'E' then
        let signed := match r with
          | '+' :: r2 => (['+'], r2)
          | '-' :: r2 => (['-'], r2)
          | _ => (([] : List Char), r)
        match signed.2.takeWhile Char.isDigit with
        | [] => .error "Exponent part is missing a number in JSON"
        | ds => .ok (e :: signed.1 ++ ds, signed.2.dropWhile Char.isDigit)
      else .ok ([], e :: r)
  | [] => .ok ([], [])

/-- Parse a full JSON number starting at `s`. -/
def parseNumber (s : List Char) : Except String (List Char × List Char) :=
  match parseNumLexeme s with
  | .error e => .error e
  | .ok (intPart, r1) =>
      match parseFrac r1 with
      | .error e => .error e
      | .ok (fracPart, r2) =>
          match parseExp r2 with
          | .error e => .error e
          | .ok (expPart, r3) => .ok (intPart ++ fracPart ++ expPart, r3)

/-- Model of JS property assignment `obj[k] = v` while building the
parsed object: a duplicate key overwrites the earlier value in place,
otherwise the pair is appended. -/
def objInsert (kvs : List (String × Json)) (k : String) (v : Json) :
    List (String × Json) :=
  if kvs.any (fun kv => kv.1 == k) then
    kvs.map (fun kv => if kv.1 == k then (k, v) else kv)
  else kvs ++ [(k, v)]

mutual

/-- Fuel-indexed recursive-descent JSON value parser (model of
`JSON.parse`); the fuel passed by `parseJson` is always sufficient. -/
def parseJsonValue : Nat → List Char → Except String (Json × List Char)
  | 0, _ => .error "JSON input too deeply nested"
  | _ + 1, 'n' :: 'u' :: 'l' :: 'l' :: r => .ok (.null, r)
  | _ + 1, 't' :: 'r' :: 'u' :: 'e' :: r => .ok (.bool true, r)
  | _ + 1, 'f' :: 'a' :: 'l' :: 's' :: 'e' :: r => .ok (.bool false, r)
  | _ + 1, '"' :: r =>
      (parseStrChars r).map (fun p => (.str (String.mk p.1), p.2))
  | n + 1, '\x7b' :: r =>
      (match skipWs r with
       | '\x7d' :: r2 => .ok (.obj [], r2)
       | r2 => (parseJsonObjBody n [] r2).map (fun p => (.obj p.1, p.2)))
  | n + 1, '[' :: r =>
      (match skipWs r with
       | ']' :: r2 => .ok (.arr [], r2)
       | r2 => (parseJsonArrBody n [] r2).map (fun p => (.arr p.1, p.2)))
  | _ + 1, s => (parseNumber s).map (fun p => (.num (String.mk p.1), p.2))

/-- Parse the members of a JSON object (whitespace already skipped,
at least one member present). -/
def parseJsonObjBody : Nat → List (String × Json) → List Char →
    Except String (List (String × Json) × List Char)
  | 0, _, _ => .error "JSON input too deeply nested"
  | n + 1, acc, s =>
      match s with
      | '"' :: r =>
          (match parseStrChars r with
           | .error e => .error e
           | .ok (keyChars, r2) =>
               match skipWs r2 with
               | ':' :: r3 =>
                   (match parseJsonValue n (skipWs r3) with
                    | .error e => .error e
                    | .ok (v, r4) =>
                        let acc2 := objInsert acc (String.mk keyChars) v
                        match skipWs r4 with
                        | ',' :: r5 => parseJsonObjBody n acc2 (skipWs r5)
                        | '\x7d' :: r5 => .ok (acc2, r5)
                        | _ => .error "Expected comma or closing brace after property value in JSON")
               | _ => .error "Expected colon after property name in JSON")
      | _ => .error "Expected property name or closing brace in JSON"

/-- Parse the elements of a JSON array (whitespace already skipped,
at least one element present). -/
def parseJsonArrBody : Nat → List Json → List Char →
    Except String (List Json × List Char)
  | 0, _, _ => .error "JSON input too deeply nested"
  | n + 1, acc, s =>
      match parseJsonValue n s with
      | .error e => .error e
      | .ok (v, r) =>
          match skipWs r with
          | ',' :: r2 => parseJsonArrBody n (acc ++ [v]) (skipWs r2)
          | ']' :: r2 => .ok (acc ++ [v], r2)
          | _ => .error "Expected comma or closing bracket after array element in JSON"

end

/-- Model of `JSON.parse` applied to the extracted slice.  The fuel
`2 * length + 4` exceeds the total number of recursive calls any
input of this length can cause. -/
def parseJson (s : List Char) : Except String Json :=
  match parseJsonValue (2 * s.length + 4) (skipWs s) with
  | .error e => .error e
  | .ok (v, rest) =>
      if (skipWs rest).isEmpty then .ok v
      else .error "Unexpected non-whitespace character after JSON"

/-- A structured Ajv validation error descriptor (the fields of an
Ajv error object that the spec's data model names: path, failing
keyword, message). -/
structure VError where
  instancePath : String
  keyword : String
  message : String
deriving DecidableEq, Repr

/-- Lookup of a property on a parsed object. -/
def objGet (kvs : List (String × Json)) (k : String) : Option Json :=
  match kvs.find? (fun kv => kv.1 == k) with
  | some kv => some kv.2
  | none => none

/-- Ajv type-keyword error. -/
def typeErr (path t : String) : VError :=
  ⟨path, "type", "must be " ++ t⟩

/-- Validation against the subschema `\x7b type: "string" \x7d`. -/
def checkString (path : String) : Json → List VError
  | .str _ => []
  | _ => [typeErr path "string"]

/-- Validation against `\x7b type: "string", enum: allowed \x7d`.  The
error list is representative (its emptiness is exactly Ajv validity;
Ajv's own error objects carry more fields). -/
def checkEnumString (path : String) (allowed : List String) : Json → List VError
  | .str s =>
      if allowed.contains s then []
      else [⟨path, "enum", "must be equal to one of the allowed values"⟩]
  | _ => [typeErr path "string"]

/-- Errors for the `required` keyword: one error per listed key that
is absent from the object. -/
def requiredErrs (path : String) (kvs : List (String × Json))
    (ks : List String) : List VError :=
  ks.filterMap (fun k =>
    if (objGet kvs k).isSome then none
    else some ⟨path, "required", "must have required property " ++ k⟩)

/-- Apply a property subschema when the property is present (Ajv
checks a property subschema only on present properties). -/
def checkProp (kvs : List (String × Json)) (k : String)
    (f : Json → List VError) : List VError :=
  match objGet kvs k with
  | some v => f v
  | none => []

/-- Validation of one `vocabulary` item:
`\x7b type: object, properties: \x7b word, meaning : string \x7d, required: [word, meaning] \x7d`
(schema lines 32-39 of part_000). -/
def checkVocabItem (path : String) : Json → List VError
  | .obj kvs =>
      requiredErrs path kvs ["word", "meaning"] ++
      checkProp kvs "word" (checkString (path ++ "/word")) ++
      checkProp kvs "meaning" (checkString (path ++ "/meaning"))
  | _ => [typeErr path "object"]

/-- Validation against `\x7b type: array, items: f \x7d`: each element is
checked against the item subschema. -/
def checkArrayItems (path : String) (f : String → Json → List VError) :
    Json → List VError
  | .arr es =>
      (((List.range es.length).zip es).map
        (fun p => f (path ++ "/" ++ toString p.1) p.2)).flatten
  | _ => [typeErr path "array"]

/-- Validation of the `main_idea` subschema (lines 42-49). -/
def checkMainIdea (path : String) : Json → List VError
  | .obj kvs =>
      requiredErrs path kvs ["direct", "indirect"] ++
      checkProp kvs "direct" (checkString (path ++ "/direct")) ++
      checkProp kvs "indirect" (checkString (path ++ "/indirect"))
  | _ => [typeErr path "object"]

/-- Validation of one `facts_opinions_inferences` item (lines 52-62). -/
def checkFoiItem (path : String) : Json → List VError
  | .obj kvs =>
      requiredErrs path kvs ["type", "text"] ++
      checkProp kvs "type"
        (checkEnumString (path ++ "/type") ["Fact", "Opinion", "Inference"]) ++
      checkProp kvs "text" (checkString (path ++ "/text"))
  | _ => [typeErr path "object"]

/-- Validation of one `transitions` item (lines 66-82). -/
def checkTransItem (path : String) : Json → List VError
  | .obj kvs =>
      requiredErrs path kvs ["src", "dest", "relation"] ++
      checkProp kvs "src" (checkString (path ++ "/src")) ++
      checkProp kvs "dest" (checkString (path ++ "/dest")) ++
      checkProp kvs "relation"
        (checkEnumString (path ++ "/relation")
          ["logical", "contrastive", "sequential", "causal"])
  | _ => [typeErr path "object"]

/-- The seven top-level property names of the `/analyze` schema, which
are also exactly its `required` list (lines 90-98). -/
def analyzeKeys : List String :=
  ["vocabulary", "title", "main_idea", "facts_opinions_inferences",
   "transitions", "keywords", "purpose"]

/-- Errors for `additionalProperties: false` at the top level (line
99): one error per present key that is not a schema property. -/
def additionalErrs (kvs : List (String × Json)) : List VError :=
  kvs.filterMap (fun kv =>
    if kv.1 ∈ analyzeKeys then none
    else some ⟨"", "additionalProperties", "must NOT have additional properties"⟩)

/-- Errors of the property subschemas of the top-level schema. -/
def analyzePropErrs (kvs : List (String × Json)) : List VError :=
  checkProp kvs "vocabulary" (checkArrayItems "/vocabulary" checkVocabItem) ++
  checkProp kvs "title" (checkString "/title") ++
  checkProp kvs "main_idea" (checkMainIdea "/main_idea") ++
  checkProp kvs "facts_opinions_inferences"
    (checkArrayItems "/facts_opinions_inferences" checkFoiItem) ++
  checkProp kvs "transitions" (checkArrayItems "/transitions" checkTransItem) ++
  checkProp kvs "keywords" (checkArrayItems "/keywords" checkString) ++
  checkProp kvs "purpose" (checkString "/purpose")

/-- Full validation of a parsed reply against the `/analyze` Ajv
schema (part_000 lines 27-100, server.js lines 25-98): the result is
empty exactly when `validate(parsed)` is true; when not empty it is
the `validate.errors` list. -/
def analyzeErrors : Json → List VError
  | .obj kvs => requiredErrs "" kvs analyzeKeys ++ additionalErrs kvs ++ analyzePropErrs kvs
  | _ => [typeErr "" "object"]

/-- A value of a request-body field after destructuring.  A missing
key destructures to `undefined`.  Arrays are modelled with string
elements (the solve route only ever renders elements into the prompt
with string interpolation, and every claim uses string arrays);
nested objects are likewise not needed by any claim. -/
inductive BodyVal where
  | undefined
  | null
  | boolean (b : Bool)
  | number (q : ℚ)
  | str (s : String)
  | arrStr (l : List String)
deriving DecidableEq

/-- JavaScript truthiness of a body value, as tested by the guards
`if (!passage)` and `if (!passage || !questions)`. -/
def truthy : BodyVal → Bool
  | .undefined => false
  | .null => false
  | .boolean b => b
  | .number q => decide (q ≠ 0)
  | .str s => !s.isEmpty
  | .arrStr _ => true

/-- JavaScript string coercion of a body value, as performed by the
template literals that build the prompts.  The number case is a
deterministic placeholder (ECMAScript double-to-string formatting is
not modelled; no claim coerces a number into a prompt). -/
def jsToString : BodyVal → List Char
  | .undefined => "undefined".data
  | .null => "null".data
  | .boolean true => "true".data
  | .boolean false => "false".data
  | .number q => (toString q).data
  | .str s => s.data
  | .arrStr l => (String.intercalate "," l).data

/-- The request body fields the routes destructure. -/
structure ReqBody where
  passage : BodyVal
  questions : BodyVal

/-- The shapes of response bodies the handlers construct. -/
inductive RespBody where
  | errMsg (msg : String)
  | errDetails (msg details : String)
  | invalid (validationErrors : List VError) (rawOutput : Json)
  | payload (j : Json)
  | html (s : List Char)

/-- An HTTP response: status code and body. -/
structure Response where
  status : Nat
  body : RespBody

/-- Continuation of the `/analyze` handler of part_000 after
`JSON.parse` (lines 132-147): a parse exception reaches the catch
block as a 500 carrying the error message; an invalid object yields
422 with `validationErrors` and `rawOutput`; a valid one is returned
as the 200 payload. -/
def analyzePost : Except String Json → Response
  | .error e => ⟨500, .errMsg e⟩
  | .ok p =>
      if (analyzeErrors p).isEmpty then ⟨200, .payload p⟩
      else ⟨422, .invalid (analyzeErrors p) p⟩

/-- The `/analyze` handler of part_000 from the model reply on
(lines 126-147): clean, locate braces, 400 when either is absent,
otherwise parse the inclusive slice and continue. -/
def analyzeOnReply (r : List Char) : Response :=
  match extractSlice (jsonRouteClean r) with
  | none => ⟨400, .errMsg "No valid JSON found"⟩
  | some s => analyzePost (parseJson s)

/-- Prompt assembly shared by `/analyze` and `/mindmap`:
a template literal `TEMPLATE\n\nPassage:\npassage`. -/
def passagePrompt (tpl : List Char) (passage : BodyVal) : List Char :=
  tpl ++ "\x0a\x0aPassage:\x0a".data ++ jsToString passage

/-- The `/analyze` route of part_000 (lines 116-149).  `tpl` is the
imported `RC_ANALYSIS_PROMPT` template (its text lives outside the
repository snapshot and never matters to a claim), `m` the external
generation model; the reply is trimmed by `generateWithModel`.  The
second component counts calls to the generation API. -/
def analyze (tpl : List Char) (b : ReqBody) (m : List Char → List Char) :
    Response × Nat :=
  if truthy b.passage then
    (analyzeOnReply (jsTrim (m (passagePrompt tpl b.passage))), 1)
  else (⟨400, .errMsg "Passage is required"⟩, 0)

/-- Continuation of the `/analyze` handler of server.js after
`JSON.parse` (lines 129-148); it differs from part_000 only in the
500 body, `\x7b error: "Internal server error", details: err.message \x7d`. -/
def analyzeSrvPost : Except String Json → Response
  | .error e => ⟨500, .errDetails "Internal server error" e⟩
  | .ok p =>
      if (analyzeErrors p).isEmpty then ⟨200, .payload p⟩
      else ⟨422, .invalid (analyzeErrors p) p⟩

/-- The `/analyze` handler of server.js from the model reply on
(lines 121-148); the 400 message reads "No valid JSON found in AI
response" there. -/
def analyzeSrvOnReply (r : List Char) : Response :=
  match extractSlice (jsonRouteClean r) with
  | none => ⟨400, .errMsg "No valid JSON found in AI response"⟩
  | some s => analyzeSrvPost (parseJson s)

/-- The `/analyze` route of server.js (lines 106-149). -/
def analyzeSrv (tpl : List Char) (b : ReqBody) (m : List Char → List Char) :
    Response × Nat :=
  if truthy b.passage then
    (analyzeSrvOnReply (jsTrim (m (passagePrompt tpl b.passage))), 1)
  else (⟨400, .errMsg "Passage is required"⟩, 0)

/-- The `/mindmap` route of part_000 (lines 156-174): guard, invoke,
strip html fences, trim, send the text back (no JSON parse). -/
def mindmap (tpl : List Char) (b : ReqBody) (m : List Char → List Char) :
    Response × Nat :=
  if truthy b.passage then
    (⟨200, .html (mindmapClean (jsTrim (m (passagePrompt tpl b.passage))))⟩, 1)
  else (⟨400, .errMsg "Passage is required"⟩, 0)

/-- Rendering of a questions array by the solve route:
`questions.map((q, i) => ` `$\x7bi + 1\x7d. $\x7bq\x7d` `).join("\n")`. -/
def numberedQuestions (qs : List String) : List Char :=
  (String.intercalate "\x0a"
    (((List.range qs.length).zip qs).map
      (fun p => toString (p.1 + 1) ++ ". " ++ p.2))).data

/-- The `combinedQuestions` expression of part_000 (lines 189-192):
a non-empty array is rendered with 1-based ordinals and joined with
newlines; any other value is used as-is (string-coerced by the
template literal). -/
def combinedQuestions : BodyVal → List Char
  | .arrStr qs => if 0 < qs.length then numberedQuestions qs else jsToString (.arrStr qs)
  | v => jsToString v

/-- Prompt assembly of the `/solve` route (line 194). -/
def solvePrompt (tpl : List Char) (passage questions : BodyVal) : List Char :=
  tpl ++ "\x0a\x0aPassage:\x0a".data ++ jsToString passage ++
    "\x0a\x0aQuestions:\x0a".data ++ combinedQuestions questions

/-- Continuation of the `/solve` handler after `JSON.parse` (lines
204-209): no schema check, parse failure is caught as a 500. -/
def solvePost : Except String Json → Response
  | .error e => ⟨500, .errMsg e⟩
  | .ok p => ⟨200, .payload p⟩

/-- The `/solve` handler of part_000 from the model reply on (lines
198-209); the extraction is identical to `/analyze`. -/
def solveOnReply (r : List Char) : Response :=
  match extractSlice (jsonRouteClean r) with
  | none => ⟨400, .errMsg "No valid JSON found"⟩
  | some s => solvePost (parseJson s)

/-- The `/solve` route of part_000 (lines 181-210): the guard
`if (!passage || !questions)` rejects unless both fields are truthy. -/
def solve (tpl : List Char) (b : ReqBody) (m : List Char → List Char) :
    Response × Nat :=
  if truthy b.passage && truthy b.questions then
    (solveOnReply (jsTrim (m (solvePrompt tpl b.passage b.questions))), 1)
  else (⟨400, .errMsg "Passage and questions are required"⟩, 0)

/-- Claimed fence removal, written from the claim's words: the
extractor of the JSON routes "removes any ```json / ```html / ```
fence markers".  Used only to compare the claim against the code,
which strips `/```json|```/g` and therefore leaves the residue
`html` behind a ```html marker. -/
def stripFencesClaimC1 : List Char → List Char
  | '\x60' :: '\x60' :: '\x60' :: 'j' :: 's' :: 'o' :: 'n' :: rest =>
      stripFencesClaimC1 rest
  | '\x60' :: '\x60' :: '\x60' :: 'h' :: 't' :: 'm' :: 'l' :: rest =>
      stripFencesClaimC1 rest
  | '\x60' :: '\x60' :: '\x60' :: rest => stripFencesClaimC1 rest
  | c :: rest => c :: stripFencesClaimC1 rest
  | [] => []

/-- The `/analyze` reply pipeline as the claim describes it, with the
claimed three-marker fence removal in place of the code's. -/
def analyzeOnReplyClaimC1 (r : List Char) : Response :=
  match extractSlice (jsTrim (stripFencesClaimC1 r)) with
  | none => ⟨400, .errMsg "No valid JSON found"⟩
  | some s => analyzePost (parseJson s)

/-- Projection used to separate concrete responses: the string value
of field `k` of a 422 body's `rawOutput`. -/
def rawOutputStrField (resp : Response) (k : String) : Option String :=
  match resp.body with
  | .invalid _ (.obj kvs) =>
      match objGet kvs k with
      | some (.str s) => some s
      | _ => none
  | _ => none

/-- The model reply on which the code's fence stripping and the
claimed three-marker stripping produce observably different parsed
objects: a ```html marker inside a JSON string value. -/
def fenceResidueReply : List Char := "\x7b\"a\":\"\x60\x60\x60html\"\x7d".data

/-- A model reply in which the schema-valid JSON object is wrapped in
```json fences; used to exhibit a 200 run of `/analyze`. -/
def analyzeValidReply : List Char :=
  ("\x60\x60\x60json\x0a\x7b\"vocabulary\":[],\"title\":\"t\"," ++
   "\"main_idea\":\x7b\"direct\":\"d\",\"indirect\":\"i\"\x7d," ++
   "\"facts_opinions_inferences\":[],\"transitions\":[]," ++
   "\"keywords\":[],\"purpose\":\"p\"\x7d\x0a\x60\x60\x60").data

/-- The object `JSON.parse` produces from `analyzeValidReply`. -/
def analyzeValidParsed : Json :=
  Json.obj
    [("vocabulary", Json.arr []), ("title", Json.str "t"),
     ("main_idea", Json.obj [("direct", Json.str "d"), ("indirect", Json.str "i")]),
     ("facts_opinions_inferences", Json.arr []), ("transitions", Json.arr []),
     ("keywords", Json.arr []), ("purpose", Json.str "p")]

/-- A model reply whose JSON lacks the required key `purpose`. -/
def analyzeMissingKeyReply : List Char :=
  ("\x60\x60\x60json\x0a\x7b\"vocabulary\":[],\"title\":\"t\"," ++
   "\"main_idea\":\x7b\"direct\":\"d\",\"indirect\":\"i\"\x7d," ++
   "\"facts_opinions_inferences\":[],\"transitions\":[]," ++
   "\"keywords\":[]\x7d\x0a\x60\x60\x60").data

/-- The brace-to-brace slice the routes extract from
`analyzeMissingKeyReply`. -/
def analyzeMissingKeySlice : List Char :=
  ("\x7b\"vocabulary\":[],\"title\":\"t\"," ++
   "\"main_idea\":\x7b\"direct\":\"d\",\"indirect\":\"i\"\x7d," ++
   "\"facts_opinions_inferences\":[],\"transitions\":[]," ++
   "\"keywords\":[]\x7d").data

/-- The object `JSON.parse` produces from `analyzeMissingKeySlice`. -/
def analyzeMissingKeyParsed : Json :=
  Json.obj
    [("vocabulary", Json.arr []), ("title", Json.str "t"),
     ("main_idea", Json.obj [("direct", Json.str "d"), ("indirect", Json.str "i")]),
     ("facts_opinions_inferences", Json.arr []), ("transitions", Json.arr []),
     ("keywords", Json.arr [])]

/-- A model reply whose brace-to-brace slice is not parseable JSON. -/
def parseFailReply : List Char := "x \x7b oops \x7d y".data

/-- The slice the routes extract from `parseFailReply`. -/
def parseFailSlice : List Char := "\x7b oops \x7d".data

/-- The parse-failure message `parseFailSlice` produces. -/
def parseFailMsg : String := "Expected property name or closing brace in JSON"

theorem objGet_isSome_mem {kvs : List (String × Json)} {k : String}
    (h : (objGet kvs k).isSome) : k ∈ kvs.map Prod.fst := by
  unfold objGet at h
  cases hf : kvs.find? (fun kv => kv.1 == k) with
  | none => rw [hf] at h; simp at h
  | some kv =>
      have hk : kv.1 = k := by
        have := List.find?_some hf
        simpa using this
      have hm : kv ∈ kvs := List.mem_of_find?_eq_some hf
      exact hk ▸ List.mem_map_of_mem Prod.fst hm

theorem analyzeErrors_nil_keys {j : Json} (h : analyzeErrors j = []) :
    ∃ kvs, j = Json.obj kvs ∧
      (∀ k ∈ analyzeKeys, k ∈ kvs.map Prod.fst) ∧
      (∀ k ∈ kvs.map Prod.fst, k ∈ analyzeKeys) := by
  cases j with
  | obj kvs =>
      simp only [analyzeErrors, List.append_eq_nil] at h
      refine ⟨kvs, rfl, ?_, ?_⟩
      · have hreq := h.1.1
        unfold requiredErrs at hreq
        intro k hk
        have := (List.filterMap_eq_nil_iff.mp hreq) k hk
        by_cases hs : (objGet kvs k).isSome
        · exact objGet_isSome_mem hs
        · rw [if_neg hs] at this; exact absurd this (by simp)
      · have hadd := h.1.2
        unfold additionalErrs at hadd
        intro k hk
        rcases List.mem_map.mp hk with ⟨kv, hkv, hfst⟩
        have := (List.filterMap_eq_nil_iff.mp hadd) kv hkv
        by_cases hin : kv.1 ∈ analyzeKeys
        · exact hfst ▸ hin
        · rw [if_neg hin] at this; exact absurd this (by simp)
  | null => simp [analyzeErrors] at h
  | bool b => simp [analyzeErrors] at h
  | num l => simp [analyzeErrors] at h
  | str s => simp [analyzeErrors] at h
  | arr es => simp [analyzeErrors] at h

/-- C1 counterexample: the claim says the JSON routes remove
"```html" fence markers, but their replacement only knows ```json
and ```, so a ```html marker inside the reply leaves the residue
"html" where the claimed algorithm leaves nothing; on the reply
`\x7b"a":"```html"\x7d` the two pipelines return observably different
422 bodies (`rawOutput.a` is "html" versus ""). -/
theorem json_routes_do_not_strip_html_fence_marker :
    rawOutputStrField (analyzeOnReply fenceResidueReply) "a" = some "html" ∧
    rawOutputStrField (analyzeOnReplyClaimC1 fenceResidueReply) "a" = some "" ∧
    analyzeOnReply fenceResidueReply ≠ analyzeOnReplyClaimC1 fenceResidueReply :=
  ⟨rfl, rfl, fun h =>
    absurd (congrArg (fun resp => rawOutputStrField resp "a") h) (by decide)⟩

/-- C1 (amended): on the JSON routes the extractor removes ```json
and ``` fence markers (a ```html fence therefore leaves the residue
"html"), trims, and locates the first opening and last closing brace;
if either is absent the routes return 400 with their "no JSON found"
message without parsing, and otherwise the handler continues with the
result of parsing exactly the inclusive slice between the two
indices. -/
theorem json_extraction_first_last_brace_slice (r : List Char) :
    (extractSlice (jsonRouteClean r) = none →
      analyzeOnReply r = ⟨400, .errMsg "No valid JSON found"⟩ ∧
      solveOnReply r = ⟨400, .errMsg "No valid JSON found"⟩ ∧
      analyzeSrvOnReply r = ⟨400, .errMsg "No valid JSON found in AI response"⟩) ∧
    (∀ s, extractSlice (jsonRouteClean r) = some s →
      analyzeOnReply r = analyzePost (parseJson s) ∧
      solveOnReply r = solvePost (parseJson s) ∧
      analyzeSrvOnReply r = analyzeSrvPost (parseJson s)) ∧
    stripJsonFences ("\x60\x60\x60json".data) = [] ∧
    stripJsonFences ("\x60\x60\x60".data) = [] ∧
    stripJsonFences ("\x60\x60\x60html".data) = "html".data := by
  refine ⟨?_, ?_, by decide, by decide, by decide⟩
  · intro h
    exact ⟨by simp [analyzeOnReply, h], by simp [solveOnReply, h],
      by simp [analyzeSrvOnReply, h]⟩
  · intro s h
    exact ⟨by simp [analyzeOnReply, h], by simp [solveOnReply, h],
      by simp [analyzeSrvOnReply, h]⟩

theorem json_extraction_first_last_brace_slice_witness :
    analyzeOnReply "no braces at all".data =
      ⟨400, .errMsg "No valid JSON found"⟩ ∧
    solveOnReply "ok \x7b\x7d done".data = solvePost (parseJson "\x7b\x7d".data) :=
  ⟨((json_extraction_first_last_brace_slice "no braces at all".data).1 (by decide)).1,
   (((json_extraction_first_last_brace_slice "ok \x7b\x7d done".data).2.1
      "\x7b\x7d".data (by decide)).2.1)⟩

/-- C2: every payload `/analyze` returns with status 200 is an object
whose top-level keys are exactly the seven schema keys — each of the
seven is present and every present key is one of the seven. -/
theorem analyze_success_payload_has_exactly_schema_keys
    (tpl : List Char) (b : ReqBody) (m : List Char → List Char)
    (j : Json) (c : Nat)
    (h : analyze tpl b m = (⟨200, .payload j⟩, c)) :
    ∃ kvs, j = Json.obj kvs ∧
      (∀ k ∈ analyzeKeys, k ∈ kvs.map Prod.fst) ∧
      (∀ k ∈ kvs.map Prod.fst, k ∈ analyzeKeys) := by
  unfold analyze at h
  cases ht : truthy b.passage with
  | false => rw [ht] at h; simp at h
  | true =>
      rw [ht] at h
      simp only [if_true] at h
      have h1 := congrArg Prod.fst h
      simp only at h1
      unfold analyzeOnReply at h1
      cases hx : extractSlice (jsonRouteClean (jsTrim (m (passagePrompt tpl b.passage)))) with
      | none => rw [hx] at h1; simp at h1
      | some s =>
          rw [hx] at h1
          dsimp only at h1
          unfold analyzePost at h1
          cases hp : parseJson s with
          | error e => rw [hp] at h1; simp at h1
          | ok p =>
              rw [hp] at h1
              dsimp only at h1
              cases he : (analyzeErrors p).isEmpty with
              | false => rw [he] at h1; simp at h1
              | true =>
                  rw [he] at h1
                  simp only [if_true, Response.mk.injEq, RespBody.payload.injEq] at h1
                  exact h1.2 ▸ analyzeErrors_nil_keys (List.isEmpty_iff.mp he)

theorem analyze_success_payload_has_exactly_schema_keys_witness :
    analyze [] ⟨.str "P", .undefined⟩ (fun _ => analyzeValidReply) =
      (⟨200, .payload analyzeValidParsed⟩, 1) ∧
    ∃ kvs, analyzeValidParsed = Json.obj kvs ∧
      (∀ k ∈ analyzeKeys, k ∈ kvs.map Prod.fst) ∧
      (∀ k ∈ kvs.map Prod.fst, k ∈ analyzeKeys) :=
  ⟨rfl, analyze_success_payload_has_exactly_schema_keys [] ⟨.str "P", .undefined⟩
    (fun _ => analyzeValidReply) analyzeValidParsed 1 rfl⟩

/-- C3: whenever the parsed reply fails schema validation, `/analyze`
answers 422 with the non-empty structured `validationErrors` list and
the original invalid object as `rawOutput` (in both source files). -/
theorem analyze_schema_failure_returns_422_with_errors_and_raw
    (r s : List Char) (p : Json)
    (hx : extractSlice (jsonRouteClean r) = some s)
    (hp : parseJson s = .ok p)
    (he : analyzeErrors p ≠ []) :
    analyzeOnReply r = ⟨422, .invalid (analyzeErrors p) p⟩ ∧
    analyzeSrvOnReply r = ⟨422, .invalid (analyzeErrors p) p⟩ ∧
    analyzeErrors p ≠ [] := by
  have hb : (analyzeErrors p).isEmpty = false := by
    cases hce : (analyzeErrors p).isEmpty with
    | false => rfl
    | true => exact absurd (List.isEmpty_iff.mp hce) he
  refine ⟨?_, ?_, he⟩
  · unfold analyzeOnReply
    rw [hx]
    dsimp only
    unfold analyzePost
    rw [hp]
    dsimp only
    rw [hb]
    simp
  · unfold analyzeSrvOnReply
    rw [hx]
    dsimp only
    unfold analyzeSrvPost
    rw [hp]
    dsimp only
    rw [hb]
    simp

theorem analyze_schema_failure_returns_422_with_errors_and_raw_witness :
    parseJson analyzeMissingKeySlice = .ok analyzeMissingKeyParsed ∧
    analyzeErrors analyzeMissingKeyParsed ≠ [] ∧
    analyzeOnReply analyzeMissingKeyReply =
      ⟨422, .invalid (analyzeErrors analyzeMissingKeyParsed) analyzeMissingKeyParsed⟩ :=
  ⟨rfl, by decide,
    (analyze_schema_failure_returns_422_with_errors_and_raw
      analyzeMissingKeyReply analyzeMissingKeySlice analyzeMissingKeyParsed
      (by decide) rfl (by decide)).1⟩

/-- C4: a request whose body lacks `passage` (and, on `/solve`, one
lacking `questions`) is answered 400 on every route and the external
generation model is invoked zero times. -/
theorem missing_fields_return_400_without_model_call
    (tpl : List Char) (m : List Char → List Char) (q p : BodyVal) :
    analyze tpl ⟨.undefined, q⟩ m = (⟨400, .errMsg "Passage is required"⟩, 0) ∧
    analyzeSrv tpl ⟨.undefined, q⟩ m = (⟨400, .errMsg "Passage is required"⟩, 0) ∧
    mindmap tpl ⟨.undefined, q⟩ m = (⟨400, .errMsg "Passage is required"⟩, 0) ∧
    solve tpl ⟨.undefined, q⟩ m =
      (⟨400, .errMsg "Passage and questions are required"⟩, 0) ∧
    solve tpl ⟨p, .undefined⟩ m =
      (⟨400, .errMsg "Passage and questions are required"⟩, 0) := by
  refine ⟨?_, ?_, ?_, ?_, ?_⟩ <;>
    simp [analyze, analyzeSrv, mindmap, solve, truthy]

/-- C5: the `/solve` prompt contains, for a non-empty questions
array, the newline-joined list of entries each prefixed with its
1-based ordinal, and, for a plain string `questions`, that string
unmodified. -/
theorem solve_prompt_renders_questions :
    (∀ (tpl : List Char) (p : BodyVal) (qs : List String), qs ≠ [] →
      List.IsInfix (numberedQuestions qs)
        (solvePrompt tpl p (BodyVal.arrStr qs))) ∧
    (∀ (tpl : List Char) (p : BodyVal) (s : String),
      List.IsInfix s.data (solvePrompt tpl p (BodyVal.str s))) := by
  constructor
  · intro tpl p qs hqs
    have hlen : 0 < qs.length := List.length_pos.mpr hqs
    refine ⟨tpl ++ "\x0a\x0aPassage:\x0a".data ++ jsToString p ++
      "\x0a\x0aQuestions:\x0a".data, [], ?_⟩
    simp [solvePrompt, combinedQuestions, if_pos hlen, List.append_assoc]
  · intro tpl p s
    refine ⟨tpl ++ "\x0a\x0aPassage:\x0a".data ++ jsToString p ++
      "\x0a\x0aQuestions:\x0a".data, [], ?_⟩
    simp [solvePrompt, combinedQuestions, jsToString, List.append_assoc]

theorem solve_prompt_renders_questions_witness :
    numberedQuestions ["What is X?", "Why Y?"] =
      "1. What is X?\x0a2. Why Y?".data ∧
    List.IsInfix ("1. What is X?\x0a2. Why Y?".data)
      (solvePrompt [] (BodyVal.str "P")
        (BodyVal.arrStr ["What is X?", "Why Y?"])) ∧
    List.IsInfix ("just one question".data)
      (solvePrompt [] (BodyVal.str "P") (BodyVal.str "just one question")) :=
  ⟨by decide,
   (by decide :
      numberedQuestions ["What is X?", "Why Y?"] =
        "1. What is X?\x0a2. Why Y?".data) ▸
     solve_prompt_renders_questions.1 [] (BodyVal.str "P")
       ["What is X?", "Why Y?"] (by decide),
   solve_prompt_renders_questions.2 [] (BodyVal.str "P") "just one question"⟩

/-- C6: on the reply `prefix \x7b"a":1\x7d middle \x7b"b":2\x7d suffix`
the JSON routes extract the naive first-open-to-last-close slice
`\x7b"a":1\x7d middle \x7b"b":2\x7d`, and both handlers continue with
exactly that slice. -/
theorem extraction_takes_first_open_to_last_close :
    extractSlice (jsonRouteClean
        ("prefix \x7b\"a\":1\x7d middle \x7b\"b\":2\x7d suffix".data)) =
      some ("\x7b\"a\":1\x7d middle \x7b\"b\":2\x7d".data) ∧
    analyzeOnReply ("prefix \x7b\"a\":1\x7d middle \x7b\"b\":2\x7d suffix".data) =
      analyzePost (parseJson ("\x7b\"a\":1\x7d middle \x7b\"b\":2\x7d".data)) ∧
    solveOnReply ("prefix \x7b\"a\":1\x7d middle \x7b\"b\":2\x7d suffix".data) =
      solvePost (parseJson ("\x7b\"a\":1\x7d middle \x7b\"b\":2\x7d".data)) :=
  ⟨by decide, rfl, rfl⟩

/-- C7: when the extracted slice is not parseable JSON, the JSON
routes answer 500 carrying the parse-failure message — not the 400
"no JSON found" error and not the 422 validation error. -/
theorem parse_failure_returns_500 (r s : List Char) (e : String)
    (hx : extractSlice (jsonRouteClean r) = some s)
    (hp : parseJson s = .error e) :
    analyzeOnReply r = ⟨500, .errMsg e⟩ ∧
    solveOnReply r = ⟨500, .errMsg e⟩ ∧
    analyzeSrvOnReply r = ⟨500, .errDetails "Internal server error" e⟩ ∧
    analyzeOnReply r ≠ ⟨400, .errMsg "No valid JSON found"⟩ ∧
    (∀ errs raw, analyzeOnReply r ≠ ⟨422, .invalid errs raw⟩) := by
  have ha : analyzeOnReply r = ⟨500, .errMsg e⟩ := by
    unfold analyzeOnReply
    rw [hx]
    dsimp only
    unfold analyzePost
    rw [hp]
  have hs : solveOnReply r = ⟨500, .errMsg e⟩ := by
    unfold solveOnReply
    rw [hx]
    dsimp only
    unfold solvePost
    rw [hp]
  have hv : analyzeSrvOnReply r = ⟨500, .errDetails "Internal server error" e⟩ := by
    unfold analyzeSrvOnReply
    rw [hx]
    dsimp only
    unfold analyzeSrvPost
    rw [hp]
  refine ⟨ha, hs, hv, ?_, ?_⟩
  · rw [ha]; simp [Response.mk.injEq]
  · intro errs raw; rw [ha]; simp [Response.mk.injEq]

theorem parse_failure_returns_500_witness :
    extractSlice (jsonRouteClean parseFailReply) = some parseFailSlice ∧
    parseJson parseFailSlice = Except.error parseFailMsg ∧
    analyzeOnReply parseFailReply = ⟨500, .errMsg parseFailMsg⟩ ∧
    solveOnReply parseFailReply = ⟨500, .errMsg parseFailMsg⟩ :=
  ⟨by decide, rfl,
   (parse_failure_returns_500 parseFailReply parseFailSlice parseFailMsg
      (by decide) rfl).1,
   (parse_failure_returns_500 parseFailReply parseFailSlice parseFailMsg
      (by decide) rfl).2.1⟩

/-- C8: the `/mindmap` post-processing is a pure deterministic
function of the model reply text: two accepted invocations whose
models return identical reply text produce identical responses
(in particular byte-identical stripped bodies). -/
theorem mindmap_output_pure_function_of_reply
    (tpl tpl2 : List Char) (b b2 : ReqBody) (m m2 : List Char → List Char)
    (h1 : truthy b.passage = true) (h2 : truthy b2.passage = true)
    (h3 : m (passagePrompt tpl b.passage) = m2 (passagePrompt tpl2 b2.passage)) :
    mindmap tpl b m = mindmap tpl2 b2 m2 := by
  simp [mindmap, h1, h2, h3]

theorem mindmap_output_pure_function_of_reply_witness :
    mindmap [] ⟨.str "x", .undefined⟩
        (fun _ => "\x60\x60\x60html<p>hi</p>\x60\x60\x60".data) =
      mindmap "T".data ⟨.str "y", .undefined⟩
        (fun _ => "\x60\x60\x60html<p>hi</p>\x60\x60\x60".data) ∧
    (mindmap [] ⟨.str "x", .undefined⟩
        (fun _ => "\x60\x60\x60html<p>hi</p>\x60\x60\x60".data)).1 =
      ⟨200, .html "<p>hi</p>".data⟩ :=
  ⟨mindmap_output_pure_function_of_reply [] "T".data
     ⟨.str "x", .undefined⟩ ⟨.str "y", .undefined⟩ _ _ rfl rfl rfl,
   rfl⟩

/-- C9: a required field that is present but falsy (such as the empty
string) is rejected exactly like a missing field, with the same 400
"required" error and no model call: the guards test JavaScript
truthiness of the value, not presence of the key. -/
theorem falsy_required_fields_rejected_like_missing
    (tpl : List Char) (m : List Char → List Char) (q p v : BodyVal)
    (hv : truthy v = false) :
    analyze tpl ⟨v, q⟩ m = analyze tpl ⟨.undefined, q⟩ m ∧
    analyze tpl ⟨v, q⟩ m = (⟨400, .errMsg "Passage is required"⟩, 0) ∧
    analyzeSrv tpl ⟨v, q⟩ m = (⟨400, .errMsg "Passage is required"⟩, 0) ∧
    mindmap tpl ⟨v, q⟩ m = (⟨400, .errMsg "Passage is required"⟩, 0) ∧
    solve tpl ⟨v, q⟩ m =
      (⟨400, .errMsg "Passage and questions are required"⟩, 0) ∧
    solve tpl ⟨p, v⟩ m =
      (⟨400, .errMsg "Passage and questions are required"⟩, 0) := by
  have hu : truthy BodyVal.undefined = false := rfl
  refine ⟨?_, ?_, ?_, ?_, ?_, ?_⟩ <;>
    simp [analyze, analyzeSrv, mindmap, solve, hv, hu]

theorem falsy_required_fields_rejected_like_missing_witness :
    truthy (BodyVal.str "") = false ∧
    analyze [] ⟨.str "", .undefined⟩ (fun _ => []) =
      analyze [] ⟨.undefined, .undefined⟩ (fun _ => []) ∧
    analyze [] ⟨.str "", .undefined⟩ (fun _ => []) =
      (⟨400, .errMsg "Passage is required"⟩, 0) ∧
    solve [] ⟨.str "ok", .str ""⟩ (fun _ => []) =
      (⟨400, .errMsg "Passage and questions are required"⟩, 0) :=
  ⟨rfl,
   (falsy_required_fields_rejected_like_missing [] (fun _ => [])
      .undefined (.str "ok") (.str "") rfl).1,
   (falsy_required_fields_rejected_like_missing [] (fun _ => [])
      .undefined (.str "ok") (.str "") rfl).2.1,
   (falsy_required_fields_rejected_like_missing [] (fun _ => [])
      .undefined (.str "ok") (.str "") rfl).2.2.2.2.2⟩

/-- C10: fence stripping is a global replacement — every occurrence
of a route's markers is deleted, including inside string content —
and each route knows only its own two markers: the JSON routes strip
```json and ``` (a ```html fence leaves the residue "html"), while
`/mindmap` strips ```html and ``` (a ```json fence leaves the residue
"json", visible in its 200 body). -/
theorem fence_stripping_global_and_per_route :
    stripJsonFences ("\x60\x60\x60json\x0a\x7b\"a\":1\x7d\x0a\x60\x60\x60".data) =
      "\x0a\x7b\"a\":1\x7d\x0a".data ∧
    stripJsonFences ("\x7b\"t\":\"a\x60\x60\x60jsonb\x60\x60\x60c\"\x7d".data) =
      "\x7b\"t\":\"abc\"\x7d".data ∧
    stripJsonFences ("\x60\x60\x60html<div>\x60\x60\x60".data) = "html<div>".data ∧
    stripHtmlFences ("\x60\x60\x60json x\x60\x60\x60".data) = "json x".data ∧
    stripHtmlFences ("a\x60\x60\x60html b\x60\x60\x60 c".data) = "a b c".data ∧
    (mindmap [] ⟨.str "p", .undefined⟩
        (fun _ => "\x60\x60\x60json<x>\x60\x60\x60".data)).1 =
      ⟨200, .html "json<x>".data⟩ ∧
    (∀ r, jsonRouteClean r = jsTrim (stripJsonFences r) ∧
      mindmapClean r = jsTrim (stripHtmlFences r)) :=
  ⟨by decide, by decide, by decide, by decide, by decide, rfl,
   fun _ => ⟨rfl, rfl⟩⟩
